import Mathlib

/-!
Verification of the clinic record-keeping application (`Dentaleditapp.py`)
against its natural-language specification.

Shallow embedding conventions:
* SQLAlchemy tables are lists of Lean structures; only the columns that the
  verified claims touch are modelled (the many demographic text columns are
  omitted).  Row order never matters for the verified properties, so the
  `order_by` clauses of the read queries are not modelled.
* Python `float` money amounts are modelled as exact rationals (`ℚ`).
* Nullable columns are `Option`-typed; Python `v or 0` on a float column is
  `Option.getD 0` (both `None` and `0.0` give `0`).
* Python `sum(...)` over a generator that may yield `None` raises a
  `TypeError`; it is modelled as an `Option`-valued fold (`pySum`).
* A SQLite value stored in an INTEGER-affinity column can still be TEXT
  (SQLite is dynamically typed and the application stores strings in the
  `treatments.case_id` column); such values are modelled by `DbVal`, whose
  equality is SQLite value comparison: values of different storage classes
  are never equal.
* SQL `LIKE 'p%'` with a wildcard-free pattern `p` is an ASCII
  case-insensitive starts-with test (`likeMatches`).
-/

namespace Dental

/-- Python `sum` over a list of nullable floats: adding `None` raises
`TypeError`, so the result is `none` as soon as any element is `none`,
otherwise the sum of the values. -/
def pySum (l : List (Option ℚ)) : Option ℚ :=
  l.foldl (fun acc x => acc.bind fun a => x.map fun v => a + v) (some 0)

/-- Whitespace trim on a character list (Python strips Unicode whitespace;
modelled for ASCII whitespace, the only whitespace the program produces). -/
def trimData (cs : List Char) : List Char :=
  ((cs.dropWhile (·.isWhitespace)).reverse.dropWhile (·.isWhitespace)).reverse

/-- Python `str.strip()`. -/
def pyStrip (s : String) : String := ⟨trimData s.data⟩

/-- Decimal value of an all-digit string, Python `int(s)` restricted to the
all-digit strings accepted by `str.isdigit`. -/
def digitsToNat (cs : List Char) : Nat :=
  cs.foldl (fun a c => 10 * a + (c.toNat - 48)) 0

/-- Python `str.isdigit()`: nonempty and every character a digit (modelled
for ASCII digits). -/
def pyIsDigit (s : String) : Bool := s ≠ "" && s.data.all Char.isDigit

/-- Digit run accepted by Python `int(...)`: nonempty, only digits and
underscores, no leading/trailing underscore, no two consecutive
underscores (PEP 515).  Returns the decimal value with underscores
ignored. -/
def pyIntDigits? (cs : List Char) : Option Nat :=
  if cs ≠ [] ∧ cs.head? ≠ some '_' ∧ cs.getLast? ≠ some '_' ∧
      cs.all (fun c => c.isDigit || c == '_') ∧
      ((cs.zip cs.tail).all fun p => !(p.1 == '_' && p.2 == '_')) then
    some ((cs.filter (·.isDigit)).foldl (fun a c => 10 * a + (c.toNat - 48)) 0)
  else
    none

/-- Python `int(s)` on a string: strip whitespace, optional sign, digit run.
Modelled for ASCII digit strings (Unicode decimal digits are not modelled;
no input of the verified program produces them). -/
def pyInt? (s : String) : Option Int :=
  match trimData s.data with
  | '+' :: rest => (pyIntDigits? rest).map Int.ofNat
  | '-' :: rest => (pyIntDigits? rest).map fun n => -(n : Int)
  | cs => (pyIntDigits? cs).map Int.ofNat

/-- Python format `"%02d"` applied to a nonnegative integer: zero-pad the
decimal representation to width 2. -/
def pad2 (n : Nat) : String := if n < 10 then "0" ++ Nat.repr n else Nat.repr n

/-- SQLite `LIKE` lower-casing of a single character (ASCII letters only). -/
def sqlLowerChar (c : Char) : Char :=
  if 'A' ≤ c ∧ c ≤ 'Z' then Char.ofNat (c.toNat + 32) else c

/-- SQL `col LIKE 'p%'` for a wildcard-free pattern stem `p`: ASCII
case-insensitive starts-with. -/
def likeMatches (pat s : String) : Bool :=
  (pat.data.map sqlLowerChar).isPrefixOf (s.data.map sqlLowerChar)

/-- Next autoincrement primary key for a table whose rows carry the given
ids. -/
def nextId (ids : List Nat) : Nat := ids.foldl max 0 + 1

/-- SQLite stored value: INTEGER or TEXT storage class.  Values of different
storage classes never compare equal. -/
inductive DbVal where
  | int (n : Int)
  | text (s : String)
deriving DecidableEq

/-- Patient row (src `class Patient`, line 377).  Only the primary key is
needed by the verified claims; the demographic and history columns are
omitted. -/
structure PatientRow where
  id : Nat
deriving DecidableEq

/-- Case row (src `class Case`, line 497): generated string identifier
`case_id` (unique), display title, lifecycle status (column default
"Active"), owning patient. -/
structure CaseRow where
  id : Nat
  case_id : String
  title : String
  status : String
  patient_id : Nat
deriving DecidableEq

/-- Visit row (src `class Visit`, line 550).  Only the key and the owning
patient are needed by the verified claims. -/
structure VisitRow where
  id : Nat
  patient_id : Nat
deriving DecidableEq

/-- Treatment row (src `class Treatment`, line 1610), restricted to the
columns the claims touch.  `case_id` is declared in the source as an
Integer foreign key to `cases.id`, but the application stores the string
case identifier in it, hence the `DbVal` type. -/
structure TreatmentRow where
  id : Nat
  patient_id : Nat
  visit_id : Nat
  case_id : DbVal
  dentist_id : Option Nat
  doctor : Option String
  date : String
  tooth_number : Option String
  notes : Option String
  amount : Option ℚ
  next_appointment : Option String
  status : String
deriving DecidableEq

/-- Payment row (src `class Payment`, line 1744). -/
structure PaymentRow where
  id : Nat
  patient_id : Nat
  treatment_id : Option Nat
  case_id : Option DbVal
  date : String
  treatment_fee : Option ℚ
  amount_paid : Option ℚ
  remaining_balance : Option ℚ
deriving DecidableEq

/-- FollowUp row (src `class FollowUp`, line 1723); the `date` column (a
process-start schema default) is omitted, no claim touches it. -/
structure FollowUpRow where
  id : Nat
  treatment_id : Nat
  notes : String
  status : Option String
  next_appointment : Option String
  attachment : Option String
deriving DecidableEq

/-- Radiograph row (src `class Radiograph`, line 1770). -/
structure RadiographRow where
  id : Nat
  patient_id : Nat
  treatment_id : Option Nat
  case_id : Option DbVal
  filename : String
deriving DecidableEq

/-- The persistent store: one list per table. -/
structure DB where
  patients : List PatientRow
  cases : List CaseRow
  visits : List VisitRow
  treatments : List TreatmentRow
  payments : List PaymentRow
  followups : List FollowUpRow
  radiographs : List RadiographRow
deriving DecidableEq

/-- Live patient balance as the specification states it: sum of the amounts
of all of P's Treatments minus the sum of `amount_paid` over all of P's
Payments (a NULL amount reads as 0, as in the application's own reads). -/
def live_balance (db : DB) (pid : Nat) : ℚ :=
  ((db.treatments.filter (·.patient_id == pid)).map (fun t => t.amount.getD 0)).sum
    - ((db.payments.filter (·.patient_id == pid)).map (fun p => p.amount_paid.getD 0)).sum

/-- Balance shown by `view_patient` (src lines 2618-2621):
`total_fee = sum(t.amount or 0 ...)`, `total_paid = sum(p.amount_paid or 0 ...)`,
`remaining = total_fee - total_paid`, all recomputed from the live tables. -/
def view_patient_remaining (db : DB) (pid : Nat) : ℚ :=
  let treatments := db.treatments.filter (·.patient_id == pid)
  let payments := db.payments.filter (·.patient_id == pid)
  let total_fee := (treatments.map (fun t => t.amount.getD 0)).sum
  let total_paid := (payments.map (fun p => p.amount_paid.getD 0)).sum
  total_fee - total_paid

/-- Balance shown by the patient dashboard `dashboard_patient`
(src lines 3433-3436); same recomputation as `view_patient`. -/
def dashboard_patient_remaining (db : DB) (pid : Nat) : ℚ :=
  let treatments := db.treatments.filter (·.patient_id == pid)
  let payments := db.payments.filter (·.patient_id == pid)
  let total_fee := (treatments.map (fun t => t.amount.getD 0)).sum
  let total_paid := (payments.map (fun p => p.amount_paid.getD 0)).sum
  total_fee - total_paid

/-- Balance shown by `print_patient` (src lines 3078-3085): plain Python
`sum` without the `or 0` guard, so it is `none` (a `TypeError`) if any
relevant amount is NULL. -/
def print_patient_remaining (db : DB) (pid : Nat) : Option ℚ :=
  (pySum ((db.treatments.filter (·.patient_id == pid)).map (·.amount))).bind fun total_fee =>
    (pySum ((db.payments.filter (·.patient_id == pid)).map (·.amount_paid))).map fun total_paid =>
      total_fee - total_paid

/-- Balance shown by `print_payment_summary` (src lines 3100-3107). -/
def print_payment_summary_remaining (db : DB) (pid : Nat) : Option ℚ :=
  (pySum ((db.treatments.filter (·.patient_id == pid)).map (·.amount))).bind fun total_fee =>
    (pySum ((db.payments.filter (·.patient_id == pid)).map (·.amount_paid))).map fun total_paid =>
      total_fee - total_paid

/-- Fleet-wide outstanding total of `dashboard_main` (src lines 1897-1901):
for each patient, recompute fees and paid from the live tables and add
`max(0.0, total_treatments - total_paid)` to the accumulator. -/
def dashboard_main_total_outstanding (db : DB) : Option ℚ :=
  db.patients.foldl
    (fun acc patient =>
      acc.bind fun a =>
        (pySum ((db.treatments.filter (·.patient_id == patient.id)).map (·.amount))).bind fun tt =>
          (pySum ((db.payments.filter (·.patient_id == patient.id)).map (·.amount_paid))).map fun tp =>
            a + max 0 (tt - tp))
    (some 0)

/-- Rewrite every Payment row's stored `remaining_balance` snapshot,
leaving every other column and table untouched. -/
def set_snapshots (db : DB) (f : PaymentRow → Option ℚ) : DB :=
  { db with payments := db.payments.map fun p => { p with remaining_balance := f p } }

/-- All treatment amounts and payment amounts of patient `pid` are
non-NULL (true of every row the application's own creation routes write). -/
def amounts_present (db : DB) (pid : Nat) : Bool :=
  db.treatments.all (fun t => t.patient_id != pid || t.amount.isSome) &&
    db.payments.all (fun p => p.patient_id != pid || p.amount_paid.isSome)

/-- Amounts of every listed patient are non-NULL. -/
def all_amounts_present (db : DB) : Bool :=
  db.patients.all fun p => amounts_present db p.id

/-- Case-identifier stem `CASE-<patient_id>-<today>` (src line 536 and
src line 2425). -/
def casePfx (pid : Nat) (today : String) : String :=
  "CASE-" ++ Nat.repr pid ++ "-" ++ today

/-- Count of the patient's Case rows whose `case_id` is `LIKE '<stem>%'`
(src lines 539-543 and src lines 2426-2429). -/
def likeCount (cs : List CaseRow) (pid : Nat) (stem : String) : Nat :=
  (cs.filter fun c => c.patient_id == pid && likeMatches stem c.case_id).length

/-- Case-identifier generator (src `Case.generate_case_id`, lines 534-545,
inlined identically in `add_treatment`, lines 2424-2430): count the
patient's existing cases matching the per-(patient, day) stem and append
`count + 1` zero-padded to two digits. -/
def generate_case_id (cs : List CaseRow) (pid : Nat) (today : String) : String :=
  let stem := casePfx pid today
  stem ++ "-" ++ pad2 (likeCount cs pid stem + 1)

/-- Case creation step of `add_treatment` without manual override
(src lines 2423-2437): generate the id, then insert a new Active case
unless a case with that `case_id` already exists for the patient. -/
def add_treatment_case (cs : List CaseRow) (pid : Nat) (today : String) :
    List CaseRow × String :=
  let cid := generate_case_id cs pid today
  if cs.any fun c => c.case_id == cid && c.patient_id == pid then (cs, cid)
  else
    (cs ++ [{ id := nextId (cs.map (·.id)), case_id := cid,
              title := "Case " ++ cid, status := "Active", patient_id := pid }],
     cid)

/-- Sequential creation of `n` cases for one patient on one day: iterate
`add_treatment_case`, returning the final Case table and the list of
generated identifiers in creation order. -/
def createCases (cs : List CaseRow) (pid : Nat) (today : String) :
    Nat → List CaseRow × List String
  | 0 => (cs, [])
  | Nat.succ n =>
    let r := add_treatment_case cs pid today
    let rest := createCases r.1 pid today n
    (rest.1, r.2 :: rest.2)

/-- Projection of the Case table to the columns the generator reads. -/
def caseKeys (cs : List CaseRow) : List (String × Nat) :=
  cs.map fun c => (c.case_id, c.patient_id)

/-- Python exception surfaced by a route. -/
inductive PyExc where
  | attributeError
deriving DecidableEq

/-- Early exits of a mutating route: `get_or_404` miss, or the
validation-failure flash-and-redirect. -/
inductive RouteErr where
  | notFound
  | validationRedirect
deriving DecidableEq

/-- Method names defined on the `Case` model in the source.  The only
case-number generator the model defines is `generate_case_id`
(src line 534); no method named `generate_case_no` exists anywhere in the
source. -/
def case_generator_methods : List String := ["generate_case_id"]

/-- Python attribute lookup of a generator method on a Case instance:
`AttributeError` when the name is not defined on the model. -/
def case_call_generator (name : String) (cs : List CaseRow) (pid : Nat)
    (today : String) : Except PyExc String :=
  if name ∈ case_generator_methods then Except.ok (generate_case_id cs pid today)
  else Except.error PyExc.attributeError

/-- POST handler of the `add_case` route (src lines 2789-2821): construct
the Case from the form fields and call `case.generate_case_no()`
(src line 2814) before `session.add`/`commit`.  The success branch mirrors
src lines 2815-2817 (it is unreachable, see `c5_add_case_attribute_error`). -/
def add_case (db : DB) (pid : Nat) (today : String) (title : String) :
    Except PyExc DB :=
  match case_call_generator "generate_case_no" db.cases pid today with
  | Except.error e => Except.error e
  | Except.ok cid =>
    Except.ok { db with cases := db.cases ++
      [{ id := nextId (db.cases.map (·.id)), case_id := cid, title := title,
         status := "Active", patient_id := pid }] }

/-- Visit resolution of `add_treatment` (src lines 2388-2391): take the
POST form value if it is all digits, else the query-string value if it is
all digits, else nothing; then look the Visit up by primary key. -/
def resolved_visit (db : DB) (raw_post_visit raw_query_visit : String) :
    Option VisitRow :=
  let visit_id :=
    if pyIsDigit raw_post_visit then some raw_post_visit
    else if pyIsDigit raw_query_visit then some raw_query_visit
    else none
  match visit_id with
  | none => none
  | some s => db.visits.find? (·.id == digitsToNat s.data)

/-- Allowed upload extensions (src line 31). -/
def ALLOWED_EXTENSIONS : List String := ["png", "jpg", "jpeg", "pdf"]

/-- Substring after the last dot, Python `filename.rsplit(".", 1)[1]`
(only used when a dot is present). -/
def lastDotSuffix (s : String) : String :=
  ⟨(s.data.reverse.takeWhile (· ≠ '.')).reverse⟩

/-- Lower-casing of Python `str.lower()` (ASCII model). -/
def pyLower (s : String) : String := ⟨s.data.map sqlLowerChar⟩

/-- Upload filter `allowed_file` (src lines 1785-1786): the name contains a
dot and its lowercased extension is in the allow-list. -/
def allowed_file (filename : String) : Bool :=
  filename.data.contains '.' &&
    pyLower (lastDotSuffix filename) ∈ ALLOWED_EXTENSIONS

/-- Collision-resistant stored name
`<timestamp>_<random>_<sanitized original>` (src lines 2550, 2857, 3220). -/
def mkUniqueName (ts : String) (rand : Nat) (sanitized : String) : String :=
  ts ++ "_" ++ Nat.repr rand ++ "_" ++ sanitized

/-- Stored filename produced by the treatment-attachment branch of
`add_treatment` (src lines 2547-2550): `none` when no file is sent or the
extension is not allowed.  `sanitize` stands for werkzeug's
`secure_filename`, `ts` for `datetime.now().strftime` of the timestamp
pattern, `rand` for `random.randint(1000, 9999)`. -/
def treatment_upload_stored (sanitize : String → String) (ts : String)
    (rand : Nat) (filename : String) : Option String :=
  if filename != "" && allowed_file filename then
    some (mkUniqueName ts rand (sanitize filename))
  else none

/-- Stored filename produced by the visit-attachment branch of `add_visit`
(src lines 2854-2857). -/
def visit_upload_stored (sanitize : String → String) (ts : String)
    (rand : Nat) (filename : String) : Option String :=
  if filename != "" && allowed_file filename then
    some (mkUniqueName ts rand (sanitize filename))
  else none

/-- Stored filename produced per file by the patient-level `upload_file`
route (src lines 3217-3221). -/
def patient_upload_stored (sanitize : String → String) (ts : String)
    (rand : Nat) (filename : String) : Option String :=
  if filename != "" && allowed_file filename then
    some (mkUniqueName ts rand (sanitize filename))
  else none

/-- Stored filename produced by the follow-up attachment branch of
`add_followup` (src lines 2923-2930): any non-empty filename is accepted,
no `allowed_file` check and no timestamp/random prefixing is applied; the
sanitized original name is stored as-is. -/
def followup_upload_stored (sanitize : String → String) (filename : String) :
    Option String :=
  if filename != "" then some (sanitize filename) else none

/-- Upload behaviour as the specification words it: a file is accepted
exactly when its extension is in the allow-list, and the stored name is
`<timestamp>_<random>_<sanitized original>`. -/
def spec_upload_stored (sanitize : String → String) (ts : String)
    (rand : Nat) (filename : String) : Option String :=
  if filename != "" && allowed_file filename then
    some (mkUniqueName ts rand (sanitize filename))
  else none

/-- POST handler of `add_treatment` (src lines 2375-2564), restricted to
the columns modelled here.  `today` feeds the case-id generator
(`strftime "%Y%m%d"`), `today_str` the row dates (`strftime "%Y-%m-%d"`);
`dentist_id`/`doctor` stand for the resolved clinician of src lines
2442-2444; `sanitize`/`ts`/`rand` are as in `treatment_upload_stored`.
Validation (src lines 2388-2395) happens before any write; the case table,
treatment, payment (with its `remaining_balance` snapshot computed after
the treatment insert, src lines 2529-2543) and optional radiograph
(src lines 2547-2561) are written in source order. -/
def add_treatment (db : DB) (pid : Nat)
    (raw_post_visit raw_query_visit : String)
    (selected_case_raw manual_case_raw : String)
    (today today_str : String) (fee paid : ℚ) (next_appt : Option String)
    (dentist_id : Option Nat) (doctor : Option String)
    (tooth_number notes : Option String)
    (attachment_name : String) (ts : String) (rand : Nat)
    (sanitize : String → String) : Except RouteErr DB :=
  match db.patients.find? (·.id == pid) with
  | none => Except.error RouteErr.notFound
  | some patient =>
    match resolved_visit db raw_post_visit raw_query_visit with
    | none => Except.error RouteErr.validationRedirect
    | some visit =>
      if visit.patient_id != patient.id then Except.error RouteErr.validationRedirect
      else
        let selected_case := pyStrip selected_case_raw
        let manual_case := pyStrip manual_case_raw
        let cid :=
          if manual_case != "" then manual_case
          else if selected_case != "" then selected_case
          else generate_case_id db.cases pid today
        let cases1 :=
          if db.cases.any fun c => c.case_id == cid && c.patient_id == pid then db.cases
          else db.cases ++ [{ id := nextId (db.cases.map (·.id)), case_id := cid,
                              title := "Case " ++ cid, status := "Active",
                              patient_id := pid }]
        let tid := nextId (db.treatments.map (·.id))
        let treatment : TreatmentRow :=
          { id := tid, patient_id := pid, case_id := DbVal.text cid,
            dentist_id := dentist_id, doctor := doctor, visit_id := visit.id,
            date := today_str, tooth_number := tooth_number, notes := notes,
            amount := some fee, next_appointment := next_appt,
            status := if next_appt.getD "" != "" then "Ongoing" else "Completed" }
        let treatments1 := db.treatments ++ [treatment]
        let prev_paid :=
          ((db.payments.filter (·.patient_id == pid)).map (fun p => p.amount_paid.getD 0)).sum
        let prev_fee :=
          ((treatments1.filter (·.patient_id == pid)).map (fun t => t.amount.getD 0)).sum
        let balance := prev_fee - prev_paid
        let payment : PaymentRow :=
          { id := nextId (db.payments.map (·.id)), patient_id := pid,
            treatment_id := some tid, case_id := some (DbVal.text cid),
            date := today_str, treatment_fee := some fee, amount_paid := some paid,
            remaining_balance := some balance }
        let radiographs1 :=
          match treatment_upload_stored sanitize ts rand attachment_name with
          | some unique =>
            db.radiographs ++ [{ id := nextId (db.radiographs.map (·.id)),
                                 patient_id := pid, treatment_id := some tid,
                                 case_id := some (DbVal.text cid), filename := unique }]
          | none => db.radiographs
        Except.ok { db with cases := cases1, treatments := treatments1,
                            payments := db.payments ++ [payment],
                            radiographs := radiographs1 }

/-- Treatments of a Case through the ORM relationship `Case.treatments`
(src lines 526-532) and the `view_case` query (src line 2874): the join
condition is `treatments.case_id = cases.id`, the integer primary key. -/
def case_treatments (db : DB) (c : CaseRow) : List TreatmentRow :=
  db.treatments.filter fun t => t.case_id == DbVal.int c.id

/-- FollowUp row written by `add_followup` (src lines 2932-2940): the
follow-up's own `next_appointment` is stored only when its status is
"Ongoing". -/
def new_followup (db : DB) (tid : Nat) (notes : String) (status : Option String)
    (next_appointment : String) (attachment_name : String)
    (sanitize : String → String) : FollowUpRow :=
  { id := nextId (db.followups.map (·.id)), treatment_id := tid,
    notes := notes, status := status,
    next_appointment :=
      if status == some "Ongoing" then some next_appointment else none,
    attachment := followup_upload_stored sanitize attachment_name }

/-- Replace the treatment with the id of `t` by `t` itself. -/
def set_treatment (ts : List TreatmentRow) (t : TreatmentRow) : List TreatmentRow :=
  ts.map fun u => if u.id == t.id then t else u

/-- POST handler of `add_followup` (src lines 2907-2962): 404 on an unknown
treatment, validation redirect on empty (stripped) notes; otherwise insert
the follow-up and update the parent treatment: if the mark-complete flag is
"1", set its status to "Completed" and clear `next_appointment`; else, if
the follow-up is "Ongoing" and a next appointment was given, overwrite the
treatment's `next_appointment` (src lines 2946-2953).  The `updated_at`
branch (src lines 2955-2956) is dead: the Treatment model defines no such
column, so `hasattr` is false. -/
def add_followup (db : DB) (tid : Nat) (notes_raw : String)
    (status : Option String) (next_appointment : String)
    (update_flag : Option String) (attachment_name : String)
    (sanitize : String → String) : Except RouteErr DB :=
  match db.treatments.find? (·.id == tid) with
  | none => Except.error RouteErr.notFound
  | some treatment =>
    let notes := pyStrip notes_raw
    if notes == "" then Except.error RouteErr.validationRedirect
    else
      let fu := new_followup db treatment.id notes status next_appointment
        attachment_name sanitize
      let treatment1 :=
        if update_flag == some "1" then
          { treatment with status := "Completed", next_appointment := none }
        else if status == some "Ongoing" && next_appointment != "" then
          { treatment with next_appointment := some next_appointment }
        else treatment
      Except.ok { db with followups := db.followups ++ [fu],
                          treatments := set_treatment db.treatments treatment1 }

/-- Canal-suggestion function `get_canals_for_tooth` (src lines 1794-1836):
codes shorter than 3 characters give the single generic canal; the suffix
from the third character on is checked against the pediatric letters, then
parsed as a Python int and mapped through the fixed anatomical table. -/
def get_canals_for_tooth (tooth_number : String) : List String :=
  if tooth_number.data.length < 3 then ["M"]
  else
    let num : String := ⟨tooth_number.data.drop 2⟩
    if num ∈ ["A", "B", "C", "D", "E"] then ["M"]
    else
      match pyInt? num with
      | none => ["M"]
      | some n =>
        if n = 1 ∨ n = 2 ∨ n = 3 then ["C"]
        else if n = 4 then ["B", "P"]
        else if n = 5 then ["C"]
        else if n = 6 then ["MB1", "MB2", "DB", "P"]
        else if n = 7 then ["MB", "DB", "P"]
        else if n = 8 then ["MB", "DB", "P"]
        else ["M"]

/-- Anatomical table as the claim words it: 1-3 one central canal, 4 two
canals, 5 one, 6 four, 7 and 8 three; anything else the generic single
canal. -/
def claim_canal_table (n : Int) : List String :=
  if n = 1 ∨ n = 2 ∨ n = 3 then ["C"]
  else if n = 4 then ["B", "P"]
  else if n = 5 then ["C"]
  else if n = 6 then ["MB1", "MB2", "DB", "P"]
  else if n = 7 ∨ n = 8 then ["MB", "DB", "P"]
  else ["M"]

/-- Identifier generated for the j-th case of one patient on one day. -/
def genId (pid : Nat) (today : String) (j : Nat) : String :=
  casePfx pid today ++ "-" ++ pad2 j

/-- Keys of the first `k` sequentially generated cases. -/
def genKeys (pid : Nat) (today : String) (k : Nat) : List (String × Nat) :=
  (List.range' 1 k).map fun j => (genId pid today j, pid)

/-- Example store for the ledger claims: patient 1 has one 120-fee
treatment and one payment of 70 whose stored snapshot (999) is
deliberately wrong. -/
def dbLedger : DB :=
  { patients := [{ id := 1 }], cases := [], visits := [],
    treatments := [{ id := 1, patient_id := 1, visit_id := 10,
                     case_id := DbVal.text "X", dentist_id := none, doctor := none,
                     date := "2025-01-02", tooth_number := none, notes := none,
                     amount := some 120, next_appointment := none,
                     status := "Completed" }],
    payments := [{ id := 1, patient_id := 1, treatment_id := some 1,
                   case_id := none, date := "2025-01-02",
                   treatment_fee := some 120, amount_paid := some 70,
                   remaining_balance := some 999 }],
    followups := [], radiographs := [] }

/-- Example store for the outstanding-total claim: patient 1 is 50 in
credit (fee 50, paid 100), patient 2 owes 100. -/
def dbFleet : DB :=
  { patients := [{ id := 1 }, { id := 2 }], cases := [], visits := [],
    treatments := [{ id := 1, patient_id := 1, visit_id := 10,
                     case_id := DbVal.text "X", dentist_id := none, doctor := none,
                     date := "2025-01-02", tooth_number := none, notes := none,
                     amount := some 50, next_appointment := none,
                     status := "Completed" },
                   { id := 2, patient_id := 2, visit_id := 11,
                     case_id := DbVal.text "Y", dentist_id := none, doctor := none,
                     date := "2025-01-03", tooth_number := none, notes := none,
                     amount := some 100, next_appointment := none,
                     status := "Completed" }],
    payments := [{ id := 1, patient_id := 1, treatment_id := some 1,
                   case_id := none, date := "2025-01-02",
                   treatment_fee := some 50, amount_paid := some 100,
                   remaining_balance := some 0 }],
    followups := [], radiographs := [] }

/-- Example store for the treatment-creation claims: patient 1 with one
empty visit 10. -/
def dbVisitOnly : DB :=
  { patients := [{ id := 1 }], cases := [], visits := [{ id := 10, patient_id := 1 }],
    treatments := [], payments := [], followups := [], radiographs := [] }

/-- Example store for the visit-validation claim: visit 10 belongs to
patient 2, not to patient 1. -/
def dbWrongVisit : DB :=
  { patients := [{ id := 1 }, { id := 2 }], cases := [],
    visits := [{ id := 10, patient_id := 2 }],
    treatments := [], payments := [], followups := [], radiographs := [] }

/-- Ongoing treatment (id 5) used by the follow-up propagation claim. -/
def t5 : TreatmentRow :=
  { id := 5, patient_id := 1, visit_id := 10, case_id := DbVal.text "C1",
    dentist_id := none, doctor := none, date := "2025-01-02",
    tooth_number := none, notes := none, amount := some 100,
    next_appointment := some "2024-12-31", status := "Ongoing" }

/-- Example store for the follow-up propagation claim. -/
def dbFollow : DB :=
  { patients := [{ id := 1 }], cases := [], visits := [{ id := 10, patient_id := 1 }],
    treatments := [t5], payments := [], followups := [], radiographs := [] }

/-- Result of adding a treatment (fee 500, paid 200, generated case id) for
patient 1 on visit 10 of `dbVisitOnly`. -/
def addTreatmentOut : Except RouteErr DB :=
  add_treatment dbVisitOnly 1 "10" "" "" "" "20250101" "2025-01-01" 500 200
    none none none none none "" "" 0 (fun s => s)

/-- The Case row created by `addTreatmentOut`. -/
def createdCase : CaseRow :=
  { id := 1, case_id := "CASE-1-20250101-01",
    title := "Case CASE-1-20250101-01", status := "Active", patient_id := 1 }

end Dental

namespace Dental

/-- Evaluation lemma for the Python sum: folding over a list of present
values from accumulator `a` gives `a` plus the sum of the values. -/
theorem pySum_go (l : List (Option ℚ)) (a : ℚ) (h : ∀ x ∈ l, x.isSome) :
    List.foldl (fun acc x => acc.bind fun b => x.map fun v => b + v) (some a) l
      = some (a + (l.map (fun x => x.getD 0)).sum) := by
  induction l generalizing a with
  | nil => simp
  | cons x xs ih =>
    obtain ⟨v, rfl⟩ := Option.isSome_iff_exists.mp (h x (List.mem_cons_self x xs))
    simp only [List.foldl_cons, Option.some_bind, Option.map_some', List.map_cons,
      List.sum_cons, Option.getD_some]
    rw [ih (a + v) fun y hy => h y (List.mem_cons_of_mem _ hy)]
    exact congrArg some (by ring)

/-- Python `sum` over present values equals the pure sum. -/
theorem pySum_eq_sum (l : List (Option ℚ)) (h : ∀ x ∈ l, x.isSome) :
    pySum l = some ((l.map (fun x => x.getD 0)).sum) := by
  have := pySum_go l 0 h
  simpa [pySum] using this

/-- Presence of the treatment amounts of a patient, extracted from
`amounts_present`. -/
theorem amounts_present_treats (db : DB) (pid : Nat)
    (h : amounts_present db pid = true) :
    ∀ x ∈ (db.treatments.filter (·.patient_id == pid)).map (·.amount), x.isSome := by
  intro x hx
  simp only [List.mem_map, List.mem_filter] at hx
  obtain ⟨t, ⟨ht, hpid⟩, rfl⟩ := hx
  have hh := h
  simp only [amounts_present, Bool.and_eq_true, List.all_eq_true] at hh
  have h2 := hh.1 t ht
  simpa [bne, hpid] using h2

/-- Presence of the payment amounts of a patient, extracted from
`amounts_present`. -/
theorem amounts_present_pays (db : DB) (pid : Nat)
    (h : amounts_present db pid = true) :
    ∀ x ∈ (db.payments.filter (·.patient_id == pid)).map (·.amount_paid), x.isSome := by
  intro x hx
  simp only [List.mem_map, List.mem_filter] at hx
  obtain ⟨p, ⟨hp, hpid⟩, rfl⟩ := hx
  have hh := h
  simp only [amounts_present, Bool.and_eq_true, List.all_eq_true] at hh
  have h2 := hh.2 p hp
  simpa [bne, hpid] using h2

/-- Collapsing the two-step maps of the Python sums to the live-balance
form. -/
theorem sums_collapse (db : DB) (pid : Nat) :
    ((((db.treatments.filter (·.patient_id == pid)).map (·.amount)).map
        (fun x => x.getD 0)).sum)
      - ((((db.payments.filter (·.patient_id == pid)).map (·.amount_paid)).map
        (fun x => x.getD 0)).sum)
      = live_balance db pid := by
  rw [List.map_map, List.map_map]
  rfl

/-- Rewriting every snapshot leaves the paid amounts of every patient
filter untouched. -/
theorem snapshots_payments_sum (ps : List PaymentRow) (f : PaymentRow → Option ℚ)
    (pid : Nat) :
    ((ps.map fun p => { p with remaining_balance := f p }).filter
        (·.patient_id == pid)).map (fun p => p.amount_paid.getD 0)
      = (ps.filter (·.patient_id == pid)).map (fun p => p.amount_paid.getD 0) := by
  induction ps with
  | nil => rfl
  | cons p ps ih =>
    by_cases hp : (p.patient_id == pid) = true
    · simp only [List.map_cons, List.filter_cons, hp, if_true]
      simpa using ih
    · simp only [List.map_cons, List.filter_cons, hp, if_false]
      simpa [hp] using ih

/-- Claim C1: every patient-level read (patient view, patient dashboard,
both print summaries) shows the live balance, the sum of the patient's
treatment amounts minus the sum of the patient's paid amounts, recomputed
from the live tables of the current state `db` (so it also holds in any
state reached by editing or deleting rows); rewriting the
`remaining_balance` snapshots stored on the Payment rows never changes any
of these reads. -/
theorem c1_live_balance_reads (db : DB) (pid : Nat)
    (h : amounts_present db pid = true) :
    view_patient_remaining db pid = live_balance db pid ∧
    dashboard_patient_remaining db pid = live_balance db pid ∧
    print_patient_remaining db pid = some (live_balance db pid) ∧
    print_payment_summary_remaining db pid = some (live_balance db pid) ∧
    ∀ f, live_balance (set_snapshots db f) pid = live_balance db pid ∧
      view_patient_remaining (set_snapshots db f) pid
        = view_patient_remaining db pid := by
  have hts := amounts_present_treats db pid h
  have hpays := amounts_present_pays db pid h
  have hprint : print_patient_remaining db pid = some (live_balance db pid) := by
    unfold print_patient_remaining
    rw [pySum_eq_sum _ hts, pySum_eq_sum _ hpays]
    simp only [Option.some_bind, Option.map_some']
    rw [← sums_collapse db pid]
  have hsnap : ∀ f, live_balance (set_snapshots db f) pid = live_balance db pid := by
    intro f
    unfold live_balance set_snapshots
    rw [snapshots_payments_sum]
  exact ⟨rfl, rfl, hprint, hprint, fun f => ⟨hsnap f, hsnap f⟩⟩

/-- Claim C1, witness: on the concrete store `dbLedger` (fee 120, paid 70,
stored snapshot deliberately wrong at 999) every read shows 50, and
rewriting all snapshots to 0 changes nothing. -/
theorem c1_live_balance_reads_witness :
    amounts_present dbLedger 1 = true ∧
    view_patient_remaining dbLedger 1 = 50 ∧
    print_patient_remaining dbLedger 1 = some 50 ∧
    live_balance (set_snapshots dbLedger fun _ => some 0) 1 = 50 := by
  have h := c1_live_balance_reads dbLedger 1 (by decide)
  have e : live_balance dbLedger 1 = 50 := by
    norm_num [live_balance, dbLedger]
  exact ⟨by decide, h.1.trans e, h.2.2.1.trans (by rw [e]), ((h.2.2.2.2 _).1).trans e⟩

/-- Evaluation lemma for the outstanding-total fold of `dashboard_main`:
with all amounts present it accumulates the clamped live balances. -/
theorem dash_go (db : DB) (ps : List PatientRow) (a : ℚ)
    (h : ∀ p ∈ ps, amounts_present db p.id = true) :
    ps.foldl
      (fun acc patient =>
        acc.bind fun b =>
          (pySum ((db.treatments.filter (·.patient_id == patient.id)).map (·.amount))).bind fun tt =>
            (pySum ((db.payments.filter (·.patient_id == patient.id)).map (·.amount_paid))).map fun tp =>
              b + max 0 (tt - tp))
      (some a)
      = some (a + (ps.map (fun p => max 0 (live_balance db p.id))).sum) := by
  induction ps generalizing a with
  | nil => simp
  | cons p ps ih =>
    have hp := h p (List.mem_cons_self p ps)
    simp only [List.foldl_cons]
    rw [pySum_eq_sum _ (amounts_present_treats db p.id hp),
      pySum_eq_sum _ (amounts_present_pays db p.id hp)]
    simp only [Option.some_bind, Option.map_some']
    rw [sums_collapse db p.id]
    rw [ih (a + max 0 (live_balance db p.id)) fun q hq => h q (List.mem_cons_of_mem p hq)]
    simp only [List.map_cons, List.sum_cons]
    exact congrArg some (by ring)

/-- Claim C3: with all amounts present, the fleet-wide outstanding total of
the main dashboard is the sum over the listed patients of their live
balance clamped below at zero, while the per-patient view shows the true
signed balance unclamped. -/
theorem c3_outstanding_clamped (db : DB) (h : all_amounts_present db = true) :
    dashboard_main_total_outstanding db
      = some ((db.patients.map (fun p => max 0 (live_balance db p.id))).sum) ∧
    ∀ pid, view_patient_remaining db pid = live_balance db pid := by
  constructor
  · have hh : ∀ p ∈ db.patients, amounts_present db p.id = true := by
      simpa [all_amounts_present, List.all_eq_true] using h
    have := dash_go db db.patients 0 hh
    unfold dashboard_main_total_outstanding
    simpa using this
  · intro pid
    rfl

/-- Claim C3, witness: on `dbFleet`, patient 1 is 50 in credit and patient
2 owes 100; the dashboard outstanding total is 100 (the credit contributes
0) while patient 1's own view shows -50. -/
theorem c3_outstanding_clamped_witness :
    all_amounts_present dbFleet = true ∧
    dashboard_main_total_outstanding dbFleet = some 100 ∧
    view_patient_remaining dbFleet 1 = -50 := by
  have h := c3_outstanding_clamped dbFleet (by decide)
  have e1 : live_balance dbFleet 1 = -50 := by norm_num [live_balance, dbFleet]
  have e2 : live_balance dbFleet 2 = 100 := by norm_num [live_balance, dbFleet]
  refine ⟨by decide, ?_, (h.2 1).trans e1⟩
  rw [h.1]
  have hp : dbFleet.patients = [{ id := 1 }, { id := 2 }] := rfl
  rw [hp]
  simp only [List.map_cons, List.map_nil, List.sum_cons, List.sum_nil]
  rw [e1, e2]
  norm_num [max_def]

/-- Claim C5: the `add_case` POST handler is expected to persist a new
Active case with a generated identifier and complete without error; the
code instead calls the nonexistent method `generate_case_no`
(src line 2814; the model only defines `generate_case_id`, src line 534),
so every POST raises `AttributeError` before anything is written. -/
theorem c5_add_case_attribute_error (db : DB) (pid : Nat) (today title : String) :
    add_case db pid today title = Except.error PyExc.attributeError := by
  simp [add_case, case_call_generator, case_generator_methods]

/-- Claim C9, counterexample: the follow-up attachment path stores a file
whose extension is not in the allow-list, under its bare sanitized name
(no timestamp/random prefix), refuting the claim that every upload path
enforces the allow-list and the collision-resistant naming scheme. -/
theorem c9_followup_upload_counterexample :
    followup_upload_stored (fun s => s) "malware.exe" = some "malware.exe" ∧
    allowed_file "malware.exe" = false := by
  exact ⟨rfl, by decide⟩

/-- Claim C9, amended: the patient, visit and treatment upload paths accept
a file exactly when its extension is in the allow-list and store it as
`<timestamp>_<4-digit random>_<sanitized original>`; the follow-up
attachment path accepts any non-empty filename regardless of extension and
stores only the sanitized original name. -/
theorem c9_upload_rules (sanitize : String → String) (ts : String)
    (rand : Nat) (filename : String) :
    treatment_upload_stored sanitize ts rand filename
        = spec_upload_stored sanitize ts rand filename ∧
    visit_upload_stored sanitize ts rand filename
        = spec_upload_stored sanitize ts rand filename ∧
    patient_upload_stored sanitize ts rand filename
        = spec_upload_stored sanitize ts rand filename ∧
    followup_upload_stored sanitize filename
        = (if filename != "" then some (sanitize filename) else none) :=
  ⟨rfl, rfl, rfl, rfl⟩

/-- Claim C10: the canal-suggestion function is total and follows the
claimed case analysis: short codes give the generic canal, pediatric
letter suffixes give the generic canal, parsed tooth numbers go through
the anatomical table, anything unparseable gives the generic canal; the
four concrete lookups of the claim hold. -/
theorem c10_canal_lookup :
    (∀ s : String, s.data.length < 3 → get_canals_for_tooth s = ["M"]) ∧
    (∀ s : String, 3 ≤ s.data.length →
      (⟨s.data.drop 2⟩ : String) ∈ ["A", "B", "C", "D", "E"] →
      get_canals_for_tooth s = ["M"]) ∧
    (∀ s : String, ∀ n : Int, 3 ≤ s.data.length →
      (⟨s.data.drop 2⟩ : String) ∉ ["A", "B", "C", "D", "E"] →
      pyInt? ⟨s.data.drop 2⟩ = some n →
      get_canals_for_tooth s = claim_canal_table n) ∧
    (∀ s : String, 3 ≤ s.data.length →
      (⟨s.data.drop 2⟩ : String) ∉ ["A", "B", "C", "D", "E"] →
      pyInt? ⟨s.data.drop 2⟩ = none →
      get_canals_for_tooth s = ["M"]) ∧
    get_canals_for_tooth "UR6" = ["MB1", "MB2", "DB", "P"] ∧
    get_canals_for_tooth "UL1" = ["C"] ∧
    get_canals_for_tooth "URC" = ["M"] ∧
    get_canals_for_tooth "" = ["M"] := by
  refine ⟨?_, ?_, ?_, ?_, by decide, by decide, by decide, by decide⟩
  · intro s hs
    unfold get_canals_for_tooth
    rw [if_pos hs]
  · intro s hs hm
    unfold get_canals_for_tooth
    rw [if_neg (Nat.not_lt.mpr hs)]
    rw [if_pos hm]
  · intro s n hs hm hp
    unfold get_canals_for_tooth
    rw [if_neg (Nat.not_lt.mpr hs)]
    rw [if_neg hm, hp]
    show (if n = 1 ∨ n = 2 ∨ n = 3 then ["C"]
      else if n = 4 then ["B", "P"]
      else if n = 5 then ["C"]
      else if n = 6 then ["MB1", "MB2", "DB", "P"]
      else if n = 7 then ["MB", "DB", "P"]
      else if n = 8 then ["MB", "DB", "P"]
      else ["M"]) = claim_canal_table n
    unfold claim_canal_table
    split_ifs <;> first | rfl | omega
  · intro s hs hm hp
    unfold get_canals_for_tooth
    rw [if_neg (Nat.not_lt.mpr hs)]
    rw [if_neg hm, hp]

/-- Claim C10, witness: the general theorem instantiated at concrete codes
with every hypothesis discharged (a molar via the table clause and an
unparseable suffix via the fallback clause). -/
theorem c10_canal_lookup_witness :
    get_canals_for_tooth "LL6" = ["MB1", "MB2", "DB", "P"] ∧
    get_canals_for_tooth "LL4" = ["B", "P"] ∧
    get_canals_for_tooth "URXY" = ["M"] := by
  refine ⟨?_, ?_, ?_⟩
  · exact (c10_canal_lookup.2.2.1 "LL6" 6 (by decide) (by decide) (by decide)).trans (by decide)
  · exact (c10_canal_lookup.2.2.1 "LL4" 4 (by decide) (by decide) (by decide)).trans (by decide)
  · exact c10_canal_lookup.2.2.2.1 "URXY" (by decide) (by decide) (by decide)

end Dental

namespace Dental

/-- Claim C7: adding a FollowUp with the mark-complete flag set transitions
the parent Treatment to "Completed" and clears its `next_appointment`
regardless of the FollowUp's own status and next-appointment fields;
without the flag, an "Ongoing" FollowUp with a non-empty next appointment
overwrites only the Treatment's `next_appointment`, leaving its status and
every other column unchanged; in both cases the only other change is the
appended FollowUp row. -/
theorem c7_followup_propagation (db : DB) (tid : Nat) (t : TreatmentRow)
    (notes_raw : String) (status : Option String) (na : String)
    (update_flag : Option String) (att : String) (sanitize : String → String)
    (ht : db.treatments.find? (·.id == tid) = some t)
    (hn : pyStrip notes_raw ≠ "") :
    (update_flag = some "1" →
      add_followup db tid notes_raw status na update_flag att sanitize =
        Except.ok { db with
          followups := db.followups ++
            [new_followup db t.id (pyStrip notes_raw) status na att sanitize],
          treatments := set_treatment db.treatments
            { t with status := "Completed", next_appointment := none } }) ∧
    (update_flag ≠ some "1" → status = some "Ongoing" → na ≠ "" →
      add_followup db tid notes_raw status na update_flag att sanitize =
        Except.ok { db with
          followups := db.followups ++
            [new_followup db t.id (pyStrip notes_raw) status na att sanitize],
          treatments := set_treatment db.treatments
            { t with next_appointment := some na } }) := by
  have hb : (pyStrip notes_raw == "") = false := by
    simpa using hn
  constructor
  · intro hf
    subst hf
    simp [add_followup, ht, hb]
  · intro hf hs hna
    subst hs
    have hf2 : (update_flag == some "1") = false := by
      simpa using hf
    have hna2 : (na != "") = true := by
      simpa using hna
    simp [add_followup, ht, hb, hf2, hna2]

/-- Claim C7, witness: both halves of the propagation theorem evaluated on
the concrete store `dbFollow` (ongoing treatment 5): once with the
mark-complete flag (its own fields say otherwise and are ignored), once
with an Ongoing follow-up carrying the appointment 2025-01-10. -/
theorem c7_followup_propagation_witness :
    (add_followup dbFollow 5 " note " (some "Skipped") "2099-01-01"
        (some "1") "" (fun s => s) =
      Except.ok { dbFollow with
        followups := dbFollow.followups ++
          [new_followup dbFollow 5 (pyStrip " note ") (some "Skipped")
            "2099-01-01" "" (fun s => s)],
        treatments := set_treatment dbFollow.treatments
          { t5 with status := "Completed", next_appointment := none } }) ∧
    (add_followup dbFollow 5 "note" (some "Ongoing") "2025-01-10"
        none "" (fun s => s) =
      Except.ok { dbFollow with
        followups := dbFollow.followups ++
          [new_followup dbFollow 5 (pyStrip "note") (some "Ongoing")
            "2025-01-10" "" (fun s => s)],
        treatments := set_treatment dbFollow.treatments
          { t5 with next_appointment := some "2025-01-10" } }) := by
  constructor
  · exact (c7_followup_propagation dbFollow 5 t5 " note " (some "Skipped")
      "2099-01-01" (some "1") "" (fun s => s) rfl (by decide)).1 rfl
  · exact (c7_followup_propagation dbFollow 5 t5 "note" (some "Ongoing")
      "2025-01-10" none "" (fun s => s) rfl (by decide)).2 (by decide) rfl (by decide)

/-- Claim C8: creating a Treatment is rejected with the validation redirect
whenever the supplied visit id is missing, non-numeric, unknown, or
resolves to a Visit of a different patient; the handler returns the error
before constructing any Case, Treatment, Payment or Radiograph row. -/
theorem c8_visit_validation (db : DB) (pid : Nat) (patient : PatientRow)
    (raw_post_visit raw_query_visit selected manual today today_str : String)
    (fee paid : ℚ) (next_appt : Option String) (dentist_id : Option Nat)
    (doctor tooth notes : Option String) (att ts : String) (rand : Nat)
    (sanitize : String → String)
    (hp : db.patients.find? (·.id == pid) = some patient)
    (hv : ∀ v, resolved_visit db raw_post_visit raw_query_visit = some v →
      v.patient_id ≠ pid) :
    add_treatment db pid raw_post_visit raw_query_visit selected manual today
      today_str fee paid next_appt dentist_id doctor tooth notes att ts rand
      sanitize = Except.error RouteErr.validationRedirect := by
  cases hres : resolved_visit db raw_post_visit raw_query_visit with
  | none => simp [add_treatment, hp, hres]
  | some v =>
    have hne := hv v hres
    have hpid : patient.id = pid := by
      have := List.find?_some hp
      simpa using this
    have hcond : (v.patient_id != patient.id) = true := by
      rw [hpid]
      simpa using hne
    simp [add_treatment, hp, hres, hcond]

/-- Claim C8, witness: on `dbWrongVisit`, visit 10 belongs to patient 2, so
adding a treatment for patient 1 with visit id "10" is rejected with the
validation redirect. -/
theorem c8_visit_validation_witness :
    add_treatment dbWrongVisit 1 "10" "" "" "" "20250101" "2025-01-01" 0 0
      none none none none none "" "" 0 (fun s => s)
      = Except.error RouteErr.validationRedirect := by
  refine c8_visit_validation dbWrongVisit 1 { id := 1 } "10" "" "" "" "20250101"
    "2025-01-01" 0 0 none none none none none "" "" 0 (fun s => s) rfl ?_
  intro v hv
  have h2 : some ({ id := 10, patient_id := 2 } : VisitRow) = some v :=
    (rfl : resolved_visit dbWrongVisit "10" "" =
      some { id := 10, patient_id := 2 }).symm.trans hv
  injection h2 with h3
  rw [← h3]
  decide

/-- Claim C6, evaluated at its failing input: adding a treatment for
patient 1 on visit 10 of `dbVisitOnly` with a generated case id creates
the Active Case row `CASE-1-20250101-01` (the create-if-absent half of the
claim holds), and the new Treatment stores that string in its `case_id`
column; but the Case's `treatments` relationship, whose join condition is
`treatments.case_id = cases.id` (the integer primary key), is empty: the
new Treatment is not linked to the Case row, refuting the linkage half of
the claim. -/
theorem c6_case_link_broken :
    (addTreatmentOut.map fun d => d.cases) = Except.ok [createdCase] ∧
    (addTreatmentOut.map fun d => d.treatments.map fun t =>
        (t.id, t.patient_id, t.visit_id, t.case_id))
      = Except.ok [(1, 1, 10, DbVal.text "CASE-1-20250101-01")] ∧
    (addTreatmentOut.map fun d => case_treatments d createdCase)
      = Except.ok [] := by
  refine ⟨?_, ?_, ?_⟩ <;> rfl

end Dental

namespace Dental

/-- Helper: two strings with the same character data are equal. -/
theorem str_ext (a b : String) (h : a.data = b.data) : a = b := by
  cases a
  cases b
  cases h
  rfl

/-- Helper: a wildcard-free LIKE stem matches any string it starts. -/
theorem likeMatches_of_data (p s : String) (r : List Char)
    (h : s.data = p.data ++ r) : likeMatches p s = true := by
  unfold likeMatches
  rw [h, List.map_append]
  exact List.isPrefixOf_iff_prefix.mpr (List.prefix_append _ _)

/-- Helper: every generated identifier matches its own stem. -/
theorem likeMatches_genId (pid : Nat) (today : String) (j : Nat) :
    likeMatches (casePfx pid today) (genId pid today j) = true := by
  apply likeMatches_of_data _ _ ("-".data ++ (pad2 j).data)
  unfold genId
  rw [String.data_append, String.data_append, List.append_assoc]

set_option maxRecDepth 4000 in
/-- Helper: the two-digit pad below 100 is the two decimal digit
characters. -/
theorem pad2_digits : ∀ n < 100,
    pad2 n = ⟨[Nat.digitChar (n / 10), Nat.digitChar (n % 10)]⟩ := by decide

/-- Helper: decimal digit characters are distinct below 10. -/
theorem digitChar_inj : ∀ i < 10, ∀ j < 10,
    Nat.digitChar i = Nat.digitChar j → i = j := by decide

/-- Helper: the two-digit pad is injective below 100. -/
theorem pad2_inj (i j : Nat) (hi : i < 100) (hj : j < 100)
    (h : pad2 i = pad2 j) : i = j := by
  rw [pad2_digits i hi, pad2_digits j hj] at h
  have h2 : [Nat.digitChar (i / 10), Nat.digitChar (i % 10)]
      = [Nat.digitChar (j / 10), Nat.digitChar (j % 10)] :=
    congrArg String.data h
  simp only [List.cons.injEq, and_true] at h2
  have e1 := digitChar_inj (i / 10) (by omega) (j / 10) (by omega) h2.1
  have e2 := digitChar_inj (i % 10) (by omega) (j % 10) (by omega) h2.2
  omega

/-- Helper: generated identifiers with distinct sequence numbers below 100
are distinct. -/
theorem genId_inj (pid : Nat) (today : String) (i j : Nat) (hi : i < 100)
    (hj : j < 100) (h : genId pid today i = genId pid today j) : i = j := by
  apply pad2_inj i j hi hj
  have hd : (casePfx pid today).data ++ ("-".data ++ (pad2 i).data)
      = (casePfx pid today).data ++ ("-".data ++ (pad2 j).data) := by
    have h2 := congrArg String.data h
    simpa [genId, String.data_append, List.append_assoc] using h2
  exact str_ext _ _ (List.append_cancel_left (List.append_cancel_left hd))

/-- Helper: the generator's count only depends on the (case id, patient)
key projection of the Case table. -/
theorem likeCount_keys (cs : List CaseRow) (pid : Nat) (stem : String) :
    likeCount cs pid stem
      = ((caseKeys cs).filter fun kv => kv.2 == pid && likeMatches stem kv.1).length := by
  unfold likeCount caseKeys
  rw [← List.countP_eq_length_filter, ← List.countP_eq_length_filter,
    List.countP_map]
  rfl

/-- Helper: the duplicate-id check only depends on the key projection. -/
theorem caseAny_keys (cs : List CaseRow) (pid : Nat) (cid : String) :
    (cs.any fun c => c.case_id == cid && c.patient_id == pid)
      = ((caseKeys cs).any fun kv => kv.1 == cid && kv.2 == pid) := by
  unfold caseKeys
  induction cs with
  | nil => rfl
  | cons c cs ih => simp only [List.map_cons, List.any_cons, ih]

/-- Helper: all generated keys match their stem, so the filter keeps all
`k` of them. -/
theorem genKeys_count (pid : Nat) (today : String) (k : Nat) :
    ((genKeys pid today k).filter fun kv =>
      kv.2 == pid && likeMatches (casePfx pid today) kv.1).length = k := by
  have hall : ∀ kv ∈ genKeys pid today k,
      (kv.2 == pid && likeMatches (casePfx pid today) kv.1) = true := by
    intro kv hkv
    simp only [genKeys, List.mem_map] at hkv
    obtain ⟨j, _, rfl⟩ := hkv
    simp [likeMatches_genId]
  rw [List.filter_eq_self.mpr hall]
  simp [genKeys]

/-- Helper: the generated keys extend by one on each creation. -/
theorem genKeys_succ (pid : Nat) (today : String) (k : Nat) :
    genKeys pid today (k + 1)
      = genKeys pid today k ++ [(genId pid today (k + 1), pid)] := by
  unfold genKeys
  rw [List.range'_concat]
  simp [Nat.add_comm]

/-- Invariant of sequential case creation: starting from a store whose
keys are stem-free plus the first `k` generated keys, `n` more creations
append exactly the keys `k+1 .. k+n` and return those identifiers, as long
as `k + n` stays within the two-digit range. -/
theorem createCases_go (db0 : List CaseRow) (pid : Nat) (today : String)
    (h0 : ∀ kv ∈ caseKeys db0, likeMatches (casePfx pid today) kv.1 = false) :
    ∀ n k, k + n ≤ 99 →
    ∀ cs, caseKeys cs = caseKeys db0 ++ genKeys pid today k →
    caseKeys (createCases cs pid today n).1
        = caseKeys db0 ++ genKeys pid today (k + n) ∧
    (createCases cs pid today n).2
        = (List.range' (k + 1) n).map (genId pid today) := by
  intro n
  induction n with
  | zero =>
    intro k _ cs hcs
    exact ⟨by simpa using hcs, rfl⟩
  | succ n ih =>
    intro k hk cs hcs
    have hcount : likeCount cs pid (casePfx pid today) = k := by
      rw [likeCount_keys, hcs, List.filter_append, List.length_append]
      have hz : ((caseKeys db0).filter fun kv =>
          kv.2 == pid && likeMatches (casePfx pid today) kv.1) = [] := by
        rw [List.filter_eq_nil_iff]
        intro kv hkv
        simp [h0 kv hkv]
      rw [hz, genKeys_count]
      simp
    have hcid : generate_case_id cs pid today = genId pid today (k + 1) := by
      show casePfx pid today ++ "-"
          ++ pad2 (likeCount cs pid (casePfx pid today) + 1)
        = genId pid today (k + 1)
      rw [hcount]
      rfl
    have hany : (cs.any fun c =>
        c.case_id == genId pid today (k + 1) && c.patient_id == pid) = false := by
      rw [caseAny_keys, hcs, List.any_append]
      have p1 : ((caseKeys db0).any fun kv =>
          kv.1 == genId pid today (k + 1) && kv.2 == pid) = false := by
        rw [List.any_eq_false]
        intro kv hkv hcontra
        rw [Bool.and_eq_true] at hcontra
        have he : kv.1 = genId pid today (k + 1) := by
          simpa using hcontra.1
        have := h0 kv hkv
        rw [he, likeMatches_genId] at this
        cases this
      have p2 : ((genKeys pid today k).any fun kv =>
          kv.1 == genId pid today (k + 1) && kv.2 == pid) = false := by
        rw [List.any_eq_false]
        intro kv hkv hcontra
        simp only [genKeys, List.mem_map] at hkv
        obtain ⟨j, hj, rfl⟩ := hkv
        rw [List.mem_range'_1] at hj
        rw [Bool.and_eq_true] at hcontra
        have he : genId pid today j = genId pid today (k + 1) := by
          simpa using hcontra.1
        have := genId_inj pid today j (k + 1) (by omega) (by omega) he
        omega
      rw [p1, p2]
      rfl
    have hstep : add_treatment_case cs pid today
        = (cs ++ [{ id := nextId (cs.map (·.id)),
                    case_id := genId pid today (k + 1),
                    title := "Case " ++ genId pid today (k + 1),
                    status := "Active", patient_id := pid }],
           genId pid today (k + 1)) := by
      unfold add_treatment_case
      rw [hcid]
      simp [hany]
    have hkeys : caseKeys (add_treatment_case cs pid today).1
        = caseKeys db0 ++ genKeys pid today (k + 1) := by
      rw [hstep]
      unfold caseKeys at hcs ⊢
      rw [List.map_append, hcs, genKeys_succ, List.append_assoc]
      rfl
    have hrec := ih (k + 1) (by omega) _ hkeys
    constructor
    · show caseKeys (createCases cs pid today (n + 1)).1 = _
      simp only [createCases]
      rw [hrec.1]
      have heq : k + 1 + n = k + (n + 1) := by omega
      rw [heq]
    · show (createCases cs pid today (n + 1)).2 = _
      simp only [createCases]
      rw [hrec.2, hstep]
      rw [List.range'_succ]
      rfl

/-- Claim C2: the generator counts the patient's existing cases whose id
starts with the per-(patient, day) stem and appends `count + 1` zero-padded
to two digits; starting from a store with no case id matching the stem,
sequentially creating `N ≤ 99` cases without manual override yields the
identifiers `stem-01`, ..., `stem-NN` in order, and they are pairwise
distinct.  (The digits-only hypothesis on the date records that the LIKE
pattern is wildcard-free, which the `likeMatches` model assumes.) -/
theorem c2_sequential_case_ids (db0 : List CaseRow) (pid : Nat)
    (today : String) (N : Nat) (hN : N ≤ 99)
    (_hdigits : today.data.all Char.isDigit = true)
    (h0 : ∀ c ∈ db0, likeMatches (casePfx pid today) c.case_id = false) :
    (∀ cs, generate_case_id cs pid today
      = casePfx pid today ++ "-"
          ++ pad2 (likeCount cs pid (casePfx pid today) + 1)) ∧
    (createCases db0 pid today N).2
      = (List.range' 1 N).map (genId pid today) ∧
    ((createCases db0 pid today N).2).Nodup := by
  have h0' : ∀ kv ∈ caseKeys db0,
      likeMatches (casePfx pid today) kv.1 = false := by
    intro kv hkv
    simp only [caseKeys, List.mem_map] at hkv
    obtain ⟨c, hc, rfl⟩ := hkv
    exact h0 c hc
  have main := createCases_go db0 pid today h0' N 0 (by omega) db0
    (by simp [genKeys])
  refine ⟨fun cs => rfl, by simpa using main.2, ?_⟩
  rw [main.2]
  apply List.Nodup.map_on
  · intro x hx y hy hxy
    rw [List.mem_range'_1] at hx hy
    exact genId_inj pid today x y (by omega) (by omega) hxy
  · exact List.nodup_range' _ _

/-- Claim C2, witness: three sequential creations for patient 7 on
2025-01-01 from an empty store yield the three distinct expected ids. -/
theorem c2_sequential_case_ids_witness :
    (createCases [] 7 "20250101" 3).2
      = ["CASE-7-20250101-01", "CASE-7-20250101-02", "CASE-7-20250101-03"] ∧
    ((createCases [] 7 "20250101" 3).2).Nodup := by
  have h := c2_sequential_case_ids [] 7 "20250101" 3 (by omega) (by decide)
    (fun c hc => absurd hc (List.not_mem_nil c))
  exact ⟨h.2.1.trans (by decide), h.2.2⟩

end Dental
